import Mathlib

/-!
# Verification of the Student Performance backend statistics engine

Shallow embedding of `src/main.py` (and the data contracts of
`src/schemas.py`) of the Student Performance API.  Numeric fields are
modelled as rationals (`ℚ`); document records coming back from the store
are modelled as structures with `Option` fields, mirroring Python dicts
on which `a.get(key, default)` is used.  Python dicts preserve insertion
order, so subject grouping is modelled as an insertion-ordered
association list.
-/

namespace StudentPerf

/-- An assessment document as read back from the store.  Fields are
optional because `compute_stats` accesses them with `a.get(...)`
defaults (main.py lines 75-80). -/
structure Assessment where
  student_id : Option String := none
  subject : Option String := none
  score : Option ℚ := none
  total : Option ℚ := none
deriving Repr, DecidableEq

/-- `round(x, 2)`: rounding a rational to two decimal places. -/
def round2 (x : ℚ) : ℚ := (round (100 * x) : ℤ) / 100

/-- The percentage computed in the loop of `compute_stats`
(main.py lines 76-78): `score = float(a.get("score", 0))`,
`total = float(a.get("total", 0)) or 1`, `pct = (score / total) * 100.0`.
Python's `or` replaces a zero (falsy) total by `1`. -/
def pct (a : Assessment) : ℚ :=
  let score := a.score.getD 0
  let total := if a.total.getD 0 = 0 then 1 else a.total.getD 0
  score / total * 100

/-- `a.get("subject", "Unknown")` (main.py line 80). -/
def subjectKey (a : Assessment) : String := a.subject.getD "Unknown"

/-- `subject_scores.setdefault(subject, []).append(pct)` on an
insertion-ordered association list: append to the existing group, or
add a fresh group at the end. -/
def insertGroup (g : List (String × List ℚ)) (k : String) (p : ℚ) :
    List (String × List ℚ) :=
  match g with
  | [] => [(k, [p])]
  | q :: rest =>
      if q.1 = k then (q.1, q.2 ++ [p]) :: rest else q :: insertGroup rest k p

/-- The grouping loop of `compute_stats` / the `$group` stage of the
overview pipeline: group the values `val a` by the key `key a`,
preserving first-encounter order of keys. -/
def groupByKey (key : Assessment → String) (val : Assessment → ℚ)
    (l : List Assessment) : List (String × List ℚ) :=
  l.foldl (fun g a => insertGroup g (key a) (val a)) []

/-- `subject_scores` after the loop of `compute_stats`
(main.py lines 73-81). -/
def subject_scores (l : List Assessment) : List (String × List ℚ) :=
  groupByKey subjectKey pct l

/-- `per_subject = {s: sum(v)/len(v) for s, v in subject_scores.items()}`
(main.py line 82). -/
def per_subject (l : List Assessment) : List (String × ℚ) :=
  (subject_scores l).map (fun p => (p.1, p.2.sum / (p.2.length : ℚ)))

/-- `max(per_subject, key=per_subject.get)`: Python's `max` keeps the
first element and replaces it only on a strictly greater value, so the
first-encountered maximum wins ties. -/
def maxByValAux (best : String × ℚ) : List (String × ℚ) → String
  | [] => best.1
  | q :: rest => if q.2 > best.2 then maxByValAux q rest else maxByValAux best rest

/-- `max(per_subject, key=per_subject.get) if per_subject else None`
(main.py line 84). -/
def maxByVal : List (String × ℚ) → Option String
  | [] => none
  | p :: rest => some (maxByValAux p rest)

/-- `min(...)`: first-encountered minimum (main.py line 85). -/
def minByValAux (best : String × ℚ) : List (String × ℚ) → String
  | [] => best.1
  | q :: rest => if q.2 < best.2 then minByValAux q rest else minByValAux best rest

/-- `min(per_subject, key=per_subject.get) if per_subject else None`. -/
def minByVal : List (String × ℚ) → Option String
  | [] => none
  | p :: rest => some (minByValAux p rest)

/-- The dictionary returned by `compute_stats` (main.py lines 86-92). -/
structure Stats where
  overall_average : ℚ
  per_subject_average : List (String × ℚ)
  best_subject : Option String
  worst_subject : Option String
  assessments_count : ℕ
deriving Repr, DecidableEq

/-- `compute_stats` (main.py lines 71-92). -/
def compute_stats (l : List Assessment) : Stats :=
  let overall_scores := l.map pct
  let overall_avg : ℚ :=
    if overall_scores.isEmpty then 0
    else overall_scores.sum / (overall_scores.length : ℚ)
  { overall_average := round2 overall_avg
    per_subject_average := (per_subject l).map (fun p => (p.1, round2 p.2))
    best_subject := maxByVal (per_subject l)
    worst_subject := minByVal (per_subject l)
    assessments_count := l.length }

/-- Spec-side effective total (spec §4.1): `effective_total = total`
unless `total` is falsy/zero, in which case `effective_total = 1`. -/
def effective_total (a : Assessment) : ℚ :=
  match a.total with
  | none => 1
  | some t => if t = 0 then 1 else t

/-- Spec-side percentage (spec §4.1 / glossary):
`percentage = (score / effective_total) * 100`. -/
def specPct (a : Assessment) : ℚ :=
  (a.score.getD 0) / effective_total a * 100

/-- Association-list lookup (`dict` access on the grouping). -/
def lookupGroup {α : Type} (g : List (String × α)) (k : String) : Option α :=
  (g.find? (fun p => p.1 = k)).map Prod.snd

/-- A student document (schemas.py `Student`): `name` required, the
rest optional. -/
structure StudentDoc where
  name : String
  email : Option String := none
  class_name : Option String := none
  roll_no : Option String := none
deriving Repr, DecidableEq

/-- An assessment creation request (schemas.py `Assessment`):
`student_id`, `subject`, `score`, `total` are required fields. -/
structure AssessmentReq where
  student_id : String
  subject : String
  score : ℚ
  total : ℚ
  assessment_date : Option String := none
  assessment_type : Option String := none
deriving Repr, DecidableEq

/-- Modelled from the spec: the document store behind `database.py`
(not under src/; spec §2 gives only the adapter contract
`create_document(collection, record) -> id` and
`get_documents(collection, filter?) -> list`).  The student collection
is keyed by the string form of the store-assigned ObjectId. -/
structure Store where
  students : List (String × StudentDoc)
  assessments : List AssessmentReq
deriving Repr, DecidableEq

/-- A hexadecimal digit. -/
def isHexChar (c : Char) : Bool :=
  c.isDigit || ('a' ≤ c && c ≤ 'f') || ('A' ≤ c && c ≤ 'F')

/-- Modelled from the spec: well-formedness of an identifier string
(the bson `ObjectId` constructor accepts a 24-character hexadecimal
string and raises otherwise). -/
def isValidObjectId (s : String) : Bool :=
  s.length = 24 && s.data.all isHexChar

/-- `to_object_id` (main.py lines 64-68): parse the id string, raising
an HTTP 400 error for a malformed one.  Raised `HTTPException`s are
modelled as `Except.error` carrying the status code. -/
def to_object_id (s : String) : Except ℕ String :=
  if isValidObjectId s then .ok s else .error 400

/-- Modelled from the spec: `create_document("assessment", record)`
appends the record to the collection and returns a fresh id
(spec §2 store contract). -/
def create_document (st : Store) (a : AssessmentReq) : Store × ℕ :=
  ({ st with assessments := st.assessments ++ [a] }, st.assessments.length)

/-- `create_assessment` (main.py lines 111-122).  The result pairs the
HTTP response (`ok` with the new record id, or `error` with a status
code) with the store after the call.  The `try/except Exception` around
`find_one` catches every exception - including the HTTP 400 raised by
`to_object_id` on a malformed `student_id` - and turns it into
`doc = None`, after which the 404 branch fires. -/
def create_assessment (st : Store) (req : AssessmentReq) :
    Except ℕ ℕ × Store :=
  let doc : Option StudentDoc :=
    match to_object_id req.student_id with
    | .error _ => none
    | .ok oid => (st.students.find? (fun p => p.1 = oid)).map Prod.snd
  match doc with
  | none => (.error 404, st)
  | some _ =>
      let r := create_document st req
      (.ok r.2, r.1)

/-- Percentage as computed by the overview aggregation pipeline
(main.py lines 147-148): `score / (total > 0 ? total : 1) * 100`. -/
def pctTop (a : Assessment) : ℚ :=
  (a.score.getD 0) / (if 0 < a.total.getD 0 then a.total.getD 0 else 1) * 100

/-- A `$group` result row of the leaderboard pipeline
(main.py line 149). -/
structure TopEntry where
  student_id : String
  avgPct : ℚ
  count : ℕ
deriving Repr, DecidableEq

/-- The `$group` key `"$student_id"` of the pipeline. -/
def studentKey (a : Assessment) : String := a.student_id.getD ""

/-- Descending order on mean percentage, the `$sort {avgPct: -1}`
stage. -/
def topGE (x y : TopEntry) : Prop := y.avgPct ≤ x.avgPct

instance : DecidableRel topGE :=
  fun x y => inferInstanceAs (Decidable (y.avgPct ≤ x.avgPct))

instance : IsTotal TopEntry topGE := ⟨fun x y => le_total y.avgPct x.avgPct⟩

instance : IsTrans TopEntry topGE := ⟨fun _ _ _ h1 h2 => le_trans h2 h1⟩

/-- Modelled from the spec: the leaderboard aggregation of
`overall_overview` (main.py lines 146-152; `top_students` in spec
§4.2), with MongoDB's aggregation semantics made explicit: group the
pipeline percentages by `student_id`, average each group, sort
descending by the mean, keep at most the top 5. -/
def top_students (l : List Assessment) : List TopEntry :=
  let groups := groupByKey studentKey pctTop l
  let entries := groups.map
    (fun p => TopEntry.mk p.1 (p.2.sum / (p.2.length : ℚ)) p.2.length)
  (entries.insertionSort topGE).take 5

/-- A leaderboard row with the student's name attached
(main.py lines 155-159). -/
structure TopOut where
  entry : TopEntry
  student_name : Option String
deriving Repr, DecidableEq

/-- The name-attachment loop inside the `try` of `overall_overview`
(main.py lines 155-159): `to_object_id` may raise (HTTP 400) and the
`find_one` lookup may fail; either exception escapes the loop and
aborts the whole block.  `lookup` models `db["student"].find_one`. -/
def attachNames (lookup : String → Except Unit (Option StudentDoc)) :
    List TopEntry → Except Unit (List TopOut)
  | [] => .ok []
  | e :: rest =>
      match to_object_id e.student_id with
      | .error _ => .error ()
      | .ok oid =>
          match lookup oid with
          | .error _ => .error ()
          | .ok sdoc =>
              (attachNames lookup rest).map
                (fun r => TopOut.mk e (sdoc.map (fun s => s.name)) :: r)

/-- The `/api/overview` response: the `compute_stats` fields plus the
`top_students` key added to the dict (main.py line 162). -/
structure Overview where
  stats : Stats
  top_students : List TopOut
deriving Repr, DecidableEq

/-- `overall_overview` (main.py lines 140-163), with the two store
round-trips abstracted: `agg` models the outcome of
`db["assessment"].aggregate(pipeline)` (which may fail) and `lookup`
models `db["student"].find_one`.  Any failure inside the `try` is
swallowed and yields `top = []`; the `compute_stats` fields are
computed before the `try` and returned regardless. -/
def overall_overview (l : List Assessment)
    (agg : Except Unit (List TopEntry))
    (lookup : String → Except Unit (Option StudentDoc)) : Overview :=
  let stats := compute_stats l
  let top : List TopOut :=
    match agg with
    | .error _ => []
    | .ok entries =>
        match attachNames lookup entries with
        | .error _ => []
        | .ok t => t
  ⟨stats, top⟩

end StudentPerf

namespace StudentPerf

/-! ## Helper lemmas -/

theorem pct_eq_specPct (a : Assessment) : pct a = specPct a := by
  unfold pct specPct effective_total
  cases a.total with
  | none => simp
  | some t => by_cases h : t = 0 <;> simp [h]

theorem lookupGroup_nil {α : Type} (k : String) :
    lookupGroup ([] : List (String × α)) k = none := rfl

theorem lookupGroup_cons {α : Type} (q : String × α) (g : List (String × α))
    (k : String) :
    lookupGroup (q :: g) k = if q.1 = k then some q.2 else lookupGroup g k := by
  by_cases h : q.1 = k <;> simp [lookupGroup, List.find?_cons, h]

theorem lookupGroup_insertGroup (g : List (String × List ℚ)) (k k' : String)
    (p : ℚ) :
    lookupGroup (insertGroup g k p) k' =
      if k' = k then some ((lookupGroup g k).getD [] ++ [p])
      else lookupGroup g k' := by
  induction g with
  | nil =>
      by_cases h : k' = k
      · subst h; simp [insertGroup, lookupGroup_cons, lookupGroup_nil]
      · simp [insertGroup, lookupGroup_cons, lookupGroup_nil, h, Ne.symm h]
  | cons q rest ih =>
      by_cases hq : q.1 = k
      · by_cases h : k' = k
        · subst h
          simp [insertGroup, hq, lookupGroup_cons]
        · simp [insertGroup, hq, lookupGroup_cons, h, Ne.symm h]
      · by_cases h : k' = k
        · subst h
          simp [insertGroup, hq, lookupGroup_cons, ih,
            fun hh : q.1 = k' => hq hh]
        · simp [insertGroup, hq, lookupGroup_cons, ih, h]

end StudentPerf

namespace StudentPerf

theorem lookupGroup_foldl_some (key : Assessment → String)
    (val : Assessment → ℚ) :
    ∀ (l : List Assessment) (g : List (String × List ℚ)) (k : String)
      (v : List ℚ), lookupGroup g k = some v →
      lookupGroup (l.foldl (fun g a => insertGroup g (key a) (val a)) g) k
        = some (v ++ (l.filter (fun a => key a = k)).map val) := by
  intro l
  induction l with
  | nil => intro g k v h; simpa using h
  | cons a l ih =>
      intro g k v h
      simp only [List.foldl_cons]
      by_cases hk : key a = k
      · subst hk
        have h1 : lookupGroup (insertGroup g (key a) (val a)) (key a)
            = some (v ++ [val a]) := by
          rw [lookupGroup_insertGroup]
          simp [h]
        rw [ih _ _ _ h1]
        simp [List.filter_cons]
      · have h1 : lookupGroup (insertGroup g (key a) (val a)) k
            = some v := by
          rw [lookupGroup_insertGroup]
          simp [Ne.symm hk, h]
        rw [ih _ _ _ h1]
        simp [List.filter_cons, hk]

theorem lookupGroup_foldl_none (key : Assessment → String)
    (val : Assessment → ℚ) :
    ∀ (l : List Assessment) (g : List (String × List ℚ)) (k : String),
      lookupGroup g k = none →
      lookupGroup (l.foldl (fun g a => insertGroup g (key a) (val a)) g) k
        = if (l.filter (fun a => key a = k)) = [] then none
          else some ((l.filter (fun a => key a = k)).map val) := by
  intro l
  induction l with
  | nil => intro g k h; simpa using h
  | cons a l ih =>
      intro g k h
      simp only [List.foldl_cons]
      by_cases hk : key a = k
      · subst hk
        have h1 : lookupGroup (insertGroup g (key a) (val a)) (key a)
            = some [val a] := by
          rw [lookupGroup_insertGroup]
          simp [h]
        rw [lookupGroup_foldl_some key val _ _ _ _ h1]
        simp [List.filter_cons]
      · have h1 : lookupGroup (insertGroup g (key a) (val a)) k
            = none := by
          rw [lookupGroup_insertGroup]
          simp [Ne.symm hk, h]
        rw [ih _ _ h1]
        simp [List.filter_cons, hk]

theorem lookupGroup_groupByKey (key : Assessment → String)
    (val : Assessment → ℚ) (l : List Assessment) (k : String) :
    lookupGroup (groupByKey key val l) k =
      if (l.filter (fun a => key a = k)) = [] then none
      else some ((l.filter (fun a => key a = k)).map val) := by
  exact lookupGroup_foldl_none key val l [] k rfl

end StudentPerf

namespace StudentPerf

theorem keys_insertGroup (g : List (String × List ℚ)) (k : String) (p : ℚ) :
    (insertGroup g k p).map Prod.fst =
      if k ∈ g.map Prod.fst then g.map Prod.fst
      else g.map Prod.fst ++ [k] := by
  induction g with
  | nil => simp [insertGroup]
  | cons q rest ih =>
      by_cases h : q.1 = k
      · simp [insertGroup, h]
      · simp only [insertGroup, if_neg h, List.map_cons, ih, List.mem_cons]
        by_cases hm : k ∈ rest.map Prod.fst
        · simp [hm, Ne.symm h]
        · simp [hm, Ne.symm h]

theorem nodup_keys_foldl (key : Assessment → String) (val : Assessment → ℚ) :
    ∀ (l : List Assessment) (g : List (String × List ℚ)),
      (g.map Prod.fst).Nodup →
      (((l.foldl (fun g a => insertGroup g (key a) (val a)) g)).map
        Prod.fst).Nodup := by
  intro l
  induction l with
  | nil => intro g h; simpa using h
  | cons a l ih =>
      intro g h
      simp only [List.foldl_cons]
      apply ih
      rw [keys_insertGroup]
      by_cases hm : key a ∈ g.map Prod.fst
      · simpa [hm] using h
      · simp [hm, List.nodup_append, h]

theorem nodup_keys_groupByKey (key : Assessment → String)
    (val : Assessment → ℚ) (l : List Assessment) :
    ((groupByKey key val l).map Prod.fst).Nodup := by
  exact nodup_keys_foldl key val l [] (by simp)

theorem lookupGroup_map {α β : Type} (f : α → β)
    (g : List (String × α)) (k : String) :
    lookupGroup (g.map (fun p => (p.1, f p.2))) k
      = (lookupGroup g k).map f := by
  induction g with
  | nil => simp [lookupGroup]
  | cons q rest ih =>
      by_cases h : q.1 = k
      · subst h
        simp [lookupGroup_cons, ih]
      · simp [lookupGroup_cons, h, ih]

theorem lookupGroup_eq_of_mem {α : Type} :
    ∀ (g : List (String × α)) (k : String) (v : α),
      (g.map Prod.fst).Nodup → (k, v) ∈ g → lookupGroup g k = some v := by
  intro g
  induction g with
  | nil => intro k v _ hm; simp at hm
  | cons q rest ih =>
      intro k v hnd hm
      rcases List.mem_cons.mp hm with hq | hrest
      · rw [← hq]
        simp [lookupGroup_cons]
      · have hk : k ∈ rest.map Prod.fst :=
          List.mem_map.mpr ⟨(k, v), hrest, rfl⟩
        simp only [List.map_cons, List.nodup_cons] at hnd
        have hne : q.1 ≠ k := fun hh => hnd.1 (hh ▸ hk)
        rw [lookupGroup_cons, if_neg hne]
        exact ih k v hnd.2 hrest

theorem round2_mono {x y : ℚ} (h : x ≤ y) : round2 x ≤ round2 y := by
  unfold round2
  have h1 : round (100 * x) ≤ round (100 * y) := by
    rw [round_eq, round_eq]
    exact Int.floor_mono (by linarith)
  have h2 : ((round (100 * x) : ℤ) : ℚ) ≤ ((round (100 * y) : ℤ) : ℚ) := by
    exact_mod_cast h1
  linarith

end StudentPerf

namespace StudentPerf

/-! ## Claim theorems -/

/-- C1: For every assessment passed to `compute_stats`, its percentage
equals `(score / effective_total) * 100`, where `effective_total` is
the assessment's total unless that total is falsy/zero, in which case
it is `1`; the divisor is never zero, and on the input
`[{score: 10, total: 0, subject: "X"}]` the percentage is `1000.0`
rather than an error. -/
theorem percentage_guarded_division :
    (∀ a : Assessment, pct a = (a.score.getD 0) / effective_total a * 100)
    ∧ (∀ a : Assessment, effective_total a ≠ 0)
    ∧ (compute_stats
        [⟨none, some "X", some 10, some 0⟩]).per_subject_average
      = [("X", 1000)]
    ∧ (compute_stats
        [⟨none, some "X", some 10, some 0⟩]).overall_average = 1000 := by
  refine ⟨fun a => pct_eq_specPct a, fun a => ?_, ?_, ?_⟩
  · unfold effective_total
    cases a.total with
    | none => simp
    | some t =>
        by_cases h : t = 0 <;> simp [h]
  · simp [compute_stats, per_subject, subject_scores, groupByKey,
      insertGroup, subjectKey, pct, round2]
    norm_num [round_eq]
  · simp [compute_stats, per_subject, subject_scores, groupByKey,
      insertGroup, subjectKey, pct, round2]
    norm_num [round_eq]

/-- C2: For every non-empty input, `overall_average` is the arithmetic
mean of all individual percentages across all assessments, rounded to
two decimal places; for the empty input it is `0.0`. -/
theorem overall_average_is_mean_of_all :
    (∀ l : List Assessment, l ≠ [] →
      (compute_stats l).overall_average
        = round2 ((l.map specPct).sum / (l.length : ℚ)))
    ∧ (compute_stats []).overall_average = 0 := by
  constructor
  · intro l hl
    obtain ⟨a, l', rfl⟩ := List.exists_cons_of_ne_nil hl
    have hps : pct = specPct := funext pct_eq_specPct
    simp [compute_stats, hps]
  · simp [compute_stats, per_subject, subject_scores, groupByKey,
      maxByVal, minByVal, round2]

/-- Witness for C2 at the one-element input `{score: 30, total: 60,
subject: "X"}`. -/
theorem overall_average_is_mean_of_all_witness :
    (compute_stats
      [⟨none, some "X", some 30, some 60⟩]).overall_average
      = round2 ((([(⟨none, some "X", some 30, some 60⟩ : Assessment)].map
          specPct).sum)
        / (([(⟨none, some "X", some 30, some 60⟩ : Assessment)].length
          : ℚ))) :=
  overall_average_is_mean_of_all.1 _ (by simp)

/-- C5: `compute_stats []` returns exactly `overall_average = 0.0`,
`per_subject_average = {}`, `best_subject = None`,
`worst_subject = None`, `assessments_count = 0`; and for every input,
`assessments_count` is the length of the input list. -/
theorem compute_stats_empty_and_count :
    compute_stats [] = ⟨0, [], none, none, 0⟩
    ∧ ∀ l : List Assessment, (compute_stats l).assessments_count
        = l.length := by
  constructor
  · simp [compute_stats, per_subject, subject_scores, groupByKey,
      maxByVal, minByVal, round2]
  · intro l
    rfl

/-- C10: An assessment lacking a `score` field is treated as score `0`,
so it contributes a percentage of `0.0`; concretely, a score-less
assessment together with a full-marks one in the same subject averages
to `50.0` both in the subject group and overall. -/
theorem missing_score_contributes_zero :
    (∀ a : Assessment, a.score = none → pct a = 0)
    ∧ (compute_stats [⟨none, some "M", none, some 50⟩,
        ⟨none, some "M", some 50, some 50⟩])
      = ⟨50, [("M", 50)], some "M", some "M", 2⟩ := by
  constructor
  · intro a h
    unfold pct
    rw [h]
    simp
  · simp [compute_stats, per_subject, subject_scores, groupByKey,
      insertGroup, subjectKey, maxByVal, minByVal, maxByValAux,
      minByValAux, pct, round2]
    norm_num [round_eq]

/-- Witness for C10: a concrete score-less assessment has percentage
`0`. -/
theorem missing_score_contributes_zero_witness :
    pct ⟨none, some "M", none, some 50⟩ = 0 :=
  missing_score_contributes_zero.1
    ⟨none, some "M", none, some 50⟩ rfl

end StudentPerf

namespace StudentPerf

/-- C3: `compute_stats` groups percentages by the assessment's subject
(a missing subject becomes the literal string "Unknown"), and
`per_subject_average` maps each subject to the arithmetic mean of the
percentages in its group, rounded to two decimal places; subjects in
the result are never duplicated. -/
theorem per_subject_average_spec :
    ∀ (l : List Assessment) (s : String),
      (lookupGroup (compute_stats l).per_subject_average s
        = (if (l.filter (fun a => a.subject.getD "Unknown" = s)) = []
           then none
           else some (round2
             ((((l.filter (fun a => a.subject.getD "Unknown" = s)).map
                 specPct).sum)
               / (((l.filter (fun a => a.subject.getD "Unknown" = s)).map
                 specPct).length : ℚ)))))
      ∧ ((compute_stats l).per_subject_average.map Prod.fst).Nodup := by
  intro l s
  constructor
  · have e1 : (compute_stats l).per_subject_average
        = (per_subject l).map (fun p => (p.1, round2 p.2)) := rfl
    have e2 : per_subject l
        = (subject_scores l).map
            (fun p => (p.1, p.2.sum / (p.2.length : ℚ))) := rfl
    have e3 : subject_scores l = groupByKey subjectKey pct l := rfl
    have h1 := lookupGroup_map round2 (per_subject l) s
    have h2 := lookupGroup_map
      (fun v : List ℚ => v.sum / (v.length : ℚ)) (subject_scores l) s
    have h3 := lookupGroup_groupByKey subjectKey pct l s
    have hps : pct = specPct := funext pct_eq_specPct
    rw [e1, h1]
    rw [← e2] at h2
    rw [h2, e3, h3, hps]
    simp only [subjectKey]
    by_cases hf : (l.filter
        (fun a : Assessment => a.subject.getD "Unknown" = s)) = []
    · simp [hf]
    · simp [hf]
  · have h := nodup_keys_groupByKey subjectKey pct l
    have e : (compute_stats l).per_subject_average.map Prod.fst
        = (groupByKey subjectKey pct l).map Prod.fst := by
      show (((per_subject l).map
        (fun p => (p.1, round2 p.2))).map Prod.fst) = _
      simp [per_subject, subject_scores, List.map_map, Function.comp]
    rw [e]
    exact h

end StudentPerf

namespace StudentPerf

/-- C4: When the result has exactly two subjects whose rounded averages
differ, `best_subject` is the subject with the strictly higher average
and `worst_subject` the one with the lower, for every input list (hence
regardless of insertion order); with no assessments `best_subject` is
`None`. -/
theorem best_worst_two_subjects (l : List Assessment) (s1 s2 : String)
    (r1 r2 : ℚ)
    (h : (compute_stats l).per_subject_average = [(s1, r1), (s2, r2)])
    (hne : r1 ≠ r2) :
    ((r2 < r1 → (compute_stats l).best_subject = some s1
        ∧ (compute_stats l).worst_subject = some s2)
      ∧ (r1 < r2 → (compute_stats l).best_subject = some s2
        ∧ (compute_stats l).worst_subject = some s1))
    ∧ (compute_stats []).best_subject = none := by
  constructor
  · have e1 : (per_subject l).map (fun p => (p.1, round2 p.2))
        = [(s1, r1), (s2, r2)] := h
    have eb : (compute_stats l).best_subject = maxByVal (per_subject l) :=
      rfl
    have ew : (compute_stats l).worst_subject = minByVal (per_subject l) :=
      rfl
    rcases hp : per_subject l with _ | ⟨a, _ | ⟨b, _ | ⟨c, rest⟩⟩⟩ <;>
      rw [hp] at e1 <;> simp only [List.map_cons, List.map_nil] at e1
    · exact absurd e1 (by simp)
    · exact absurd e1 (by simp)
    · rw [eb, ew, hp]
      obtain ⟨e11, e12⟩ := List.cons.injEq .. ▸ e1
      obtain ⟨e21, _⟩ := List.cons.injEq .. ▸ e12
      obtain ⟨ha1, ha2⟩ := Prod.mk.injEq .. ▸ e11
      obtain ⟨hb1, hb2⟩ := Prod.mk.injEq .. ▸ e21
      have hbest : maxByVal [a, b]
          = some (if b.2 > a.2 then b.1 else a.1) := by
        by_cases hab : b.2 > a.2 <;>
          simp [maxByVal, maxByValAux, hab]
      have hworst : minByVal [a, b]
          = some (if b.2 < a.2 then b.1 else a.1) := by
        by_cases hab : b.2 < a.2 <;>
          simp [minByVal, minByValAux, hab]
      rcases lt_trichotomy a.2 b.2 with hlt | heq | hgt
      · have hr : r1 < r2 := by
          have := round2_mono (le_of_lt hlt)
          rw [ha2, hb2] at this
          exact lt_of_le_of_ne this hne
        constructor
        · intro h'
          exact absurd hr (not_lt_of_gt h')
        · intro _
          rw [hbest, hworst, if_pos hlt, if_neg (not_lt_of_gt hlt)]
          exact ⟨hb1 ▸ rfl, ha1 ▸ rfl⟩
      · exact absurd (ha2 ▸ hb2 ▸ congrArg round2 heq) hne
      · have hr : r2 < r1 := by
          have := round2_mono (le_of_lt hgt)
          rw [ha2, hb2] at this
          exact lt_of_le_of_ne this (Ne.symm hne)
        constructor
        · intro _
          rw [hbest, hworst, if_neg (not_lt_of_gt hgt), if_pos hgt]
          exact ⟨ha1 ▸ rfl, hb1 ▸ rfl⟩
        · intro h'
          exact absurd hr (not_lt_of_gt h')
    · exact absurd e1 (by simp)
  · simp [compute_stats, per_subject, subject_scores, groupByKey,
      maxByVal]

/-- Witness for C4: two subjects "A" (50%) and "B" (80%); `B` is best
and `A` is worst. -/
theorem best_worst_two_subjects_witness :
    (compute_stats [⟨none, some "A", some 50, some 100⟩,
        ⟨none, some "B", some 80, some 100⟩]).best_subject = some "B"
    ∧ (compute_stats [⟨none, some "A", some 50, some 100⟩,
        ⟨none, some "B", some 80, some 100⟩]).worst_subject
      = some "A" := by
  have h := best_worst_two_subjects
      [⟨none, some "A", some 50, some 100⟩,
        ⟨none, some "B", some 80, some 100⟩] "A" "B" 50 80
      (by simp [compute_stats, per_subject, subject_scores, groupByKey,
            insertGroup, subjectKey, pct, round2]
          norm_num [round_eq])
      (by norm_num)
  exact h.1.2 (by norm_num)

end StudentPerf

namespace StudentPerf

/-- C6: creating an assessment whose `student_id` resolves to no stored
student responds HTTP 404 and leaves the store unchanged (no record is
created). -/
theorem create_assessment_unknown_student (st : Store)
    (req : AssessmentReq)
    (h : st.students.find? (fun p => p.1 = req.student_id) = none) :
    create_assessment st req = (Except.error 404, st) := by
  unfold create_assessment
  cases hv : to_object_id req.student_id with
  | error e => simp
  | ok oid =>
      have hoid : oid = req.student_id := by
        unfold to_object_id at hv
        by_cases hb : isValidObjectId req.student_id <;> simp [hb] at hv
        exact hv.symm
      subst hoid
      simp [h]

/-- Witness for C6: the empty store knows no student, so the creation
request is rejected with 404 and the store stays empty. -/
theorem create_assessment_unknown_student_witness :
    create_assessment ⟨[], []⟩
      ⟨"0123456789abcdef01234567", "Math", 10, 20, none, none⟩
      = (Except.error 404, ⟨[], []⟩) :=
  create_assessment_unknown_student ⟨[], []⟩
    ⟨"0123456789abcdef01234567", "Math", 10, 20, none, none⟩ rfl

/-- C7 counterexample: on the malformed `student_id` "xyz",
`create_assessment` responds 404, not the claimed 400 - the HTTP 400
exception raised by `to_object_id` is caught by the surrounding
`except Exception` handler, which turns it into the not-found path. -/
theorem create_assessment_invalid_id_counterexample :
    (create_assessment ⟨[], []⟩ ⟨"xyz", "Math", 10, 20, none, none⟩).1
      = Except.error 404
    ∧ (Except.error 404 : Except ℕ ℕ) ≠ Except.error 400 := by
  constructor
  · rfl
  · intro h
    exact absurd (Except.error.injEq .. ▸ h) (by norm_num)

/-- C7 (amended): the helper `to_object_id` does signal HTTP 400 on a
malformed identifier, but in `create_assessment` that exception is
caught by the `except Exception` around the lookup, so the endpoint
responds 404 and never creates the record. -/
theorem create_assessment_invalid_id (st : Store) (req : AssessmentReq)
    (h : isValidObjectId req.student_id = false) :
    to_object_id req.student_id = Except.error 400
    ∧ create_assessment st req = (Except.error 404, st) := by
  constructor
  · unfold to_object_id
    simp [h]
  · unfold create_assessment to_object_id
    simp [h]

/-- Witness for C7's amended statement at the malformed id
"bad-id". -/
theorem create_assessment_invalid_id_witness :
    to_object_id "bad-id" = Except.error 400
    ∧ create_assessment ⟨[], []⟩ ⟨"bad-id", "Sci", 5, 10, none, none⟩
      = (Except.error 404, ⟨[], []⟩) :=
  create_assessment_invalid_id ⟨[], []⟩
    ⟨"bad-id", "Sci", 5, 10, none, none⟩ (by decide)

end StudentPerf

namespace StudentPerf

/-- C8: the leaderboard never holds more than 5 entries and is sorted
non-increasingly by mean percentage, where each entry's mean is the
average of the pipeline percentages (`total > 0 ? total : 1` fallback)
of the assessments grouped under its `student_id`. -/
theorem top_students_spec (l : List Assessment) :
    (top_students l).length ≤ 5
    ∧ ((top_students l).map TopEntry.avgPct).Sorted (fun x y => y ≤ x)
    ∧ ∀ e ∈ top_students l,
        e.avgPct
          = (((l.filter (fun a => a.student_id.getD ""
              = e.student_id)).map pctTop).sum)
            / ((((l.filter (fun a => a.student_id.getD ""
              = e.student_id)).map pctTop).length : ℚ))
        ∧ e.count
          = ((l.filter (fun a => a.student_id.getD ""
              = e.student_id)).map pctTop).length := by
  have hdef : top_students l
      = (((groupByKey studentKey pctTop l).map
          (fun p => TopEntry.mk p.1 (p.2.sum / (p.2.length : ℚ))
            p.2.length)).insertionSort topGE).take 5 := rfl
  refine ⟨?_, ?_, ?_⟩
  · rw [hdef, List.length_take]
    exact min_le_left _ _
  · have hs := List.sorted_insertionSort topGE
      ((groupByKey studentKey pctTop l).map
        (fun p => TopEntry.mk p.1 (p.2.sum / (p.2.length : ℚ))
          p.2.length))
    have hs2 : (top_students l).Pairwise topGE := by
      rw [hdef]
      exact List.Pairwise.sublist (List.take_sublist 5 _) hs
    exact List.pairwise_map.mpr hs2
  · intro e he
    rw [hdef] at he
    have he2 := List.Sublist.mem he (List.take_sublist 5 _)
    have he3 := (List.perm_insertionSort topGE _).mem_iff.mp he2
    obtain ⟨p, hp, rfl⟩ := List.mem_map.mp he3
    have hnd := nodup_keys_groupByKey studentKey pctTop l
    have hlk : lookupGroup (groupByKey studentKey pctTop l) p.1
        = some p.2 :=
      lookupGroup_eq_of_mem _ p.1 p.2 hnd (by rw [Prod.mk.eta]; exact hp)
    rw [lookupGroup_groupByKey] at hlk
    by_cases hf : (l.filter (fun a => studentKey a = p.1)) = []
    · rw [if_pos hf] at hlk
      exact Option.noConfusion hlk
    · rw [if_neg hf] at hlk
      have hv : p.2 = (l.filter (fun a => studentKey a = p.1)).map pctTop :=
        (Option.some.inj hlk).symm
      constructor
      · show p.2.sum / (p.2.length : ℚ)
            = ((l.filter (fun a => a.student_id.getD "" = p.1)).map
                pctTop).sum
              / (((l.filter (fun a => a.student_id.getD "" = p.1)).map
                pctTop).length : ℚ)
        rw [hv]
        simp only [studentKey]
      · show p.2.length
            = ((l.filter (fun a => a.student_id.getD "" = p.1)).map
                pctTop).length
        rw [hv]
        simp only [studentKey]

/-- Witness for C8's per-entry clause: student "s1" with one 100/200
assessment appears with mean 50 and count 1. -/
theorem top_students_spec_witness :
    (TopEntry.mk "s1" 50 1).avgPct
      = ((([(⟨some "s1", some "M", some 100, some 200⟩ : Assessment)]).filter
          (fun a => a.student_id.getD ""
            = (TopEntry.mk "s1" 50 1).student_id)).map pctTop).sum
        / (((([(⟨some "s1", some "M", some 100, some 200⟩ :
              Assessment)]).filter
          (fun a => a.student_id.getD ""
            = (TopEntry.mk "s1" 50 1).student_id)).map pctTop).length : ℚ)
    ∧ (TopEntry.mk "s1" 50 1).count
      = ((([(⟨some "s1", some "M", some 100, some 200⟩ : Assessment)]).filter
          (fun a => a.student_id.getD ""
            = (TopEntry.mk "s1" 50 1).student_id)).map pctTop).length :=
  (top_students_spec [⟨some "s1", some "M", some 100, some 200⟩]).2.2
    (TopEntry.mk "s1" 50 1)
    (by simp [top_students, groupByKey, insertGroup, studentKey,
          List.insertionSort, List.orderedInsert, pctTop]
        norm_num)

/-- C9: if the leaderboard aggregation fails, or the student-name
attachment fails, the overview returns an empty `top_students` list and
still returns the `compute_stats` fields unchanged. -/
theorem overview_degrades_to_empty (l : List Assessment)
    (agg : Except Unit (List TopEntry))
    (lookup : String → Except Unit (Option StudentDoc))
    (h : agg = Except.error ()
      ∨ ∃ entries, agg = Except.ok entries
          ∧ attachNames lookup entries = Except.error ()) :
    (overall_overview l agg lookup).top_students = []
    ∧ (overall_overview l agg lookup).stats = compute_stats l := by
  rcases h with h | ⟨entries, h1, h2⟩
  · subst h
    exact ⟨rfl, rfl⟩
  · subst h1
    unfold overall_overview
    simp [h2]

/-- Witness for C9: a failed aggregation over the empty store yields an
empty leaderboard and the `compute_stats` fields. -/
theorem overview_degrades_to_empty_witness :
    (overall_overview [] (Except.error ())
        (fun _ => Except.ok none)).top_students = []
    ∧ (overall_overview [] (Except.error ())
        (fun _ => Except.ok none)).stats = compute_stats [] :=
  overview_degrades_to_empty [] (Except.error ())
    (fun _ => Except.ok none) (Or.inl rfl)

end StudentPerf
